import Mathlib

/-!
# Verification of the drstrace argument-decoding and trace-formatting core

Shallow embedding of `src/drstrace/drstrace.c` (the syscall-tracing client).
The C functions `print_simple_value`, `print_unicode_string`, `print_arg`,
`drsys_iter_arg_cb`, `event_pre_syscall` and `event_post_syscall` are
translated into Lean functions that produce a trace of events: text output
(`dr_fprintf` to the log file), guarded safe reads (`dr_safe_read`),
direct (unguarded) dereferences of traced-process memory, and process
aborts (the `ASSERT` macro, which prints a diagnostic and calls
`dr_abort`).  External collaborator results (the drsyscall introspection
service and the memory state of the traced process) are passed in as
explicit parameters.
-/

set_option autoImplicit false

namespace Drstrace

/-- Width in bytes of `ptr_uint_t` / a native machine word (64-bit build). -/
def wordBytes : Nat := 8

/-- One hexadecimal digit character. -/
def hexDigit (n : Nat) : Char :=
  if n < 10 then Char.ofNat (48 + n) else Char.ofNat (87 + n)

/-- Fuel-based hexadecimal digit list (most significant first). -/
def toHexAux : Nat → Nat → List Char
  | 0, _ => []
  | fuel+1, n => if n < 16 then [hexDigit n] else toHexAux fuel (n / 16) ++ [hexDigit (n % 16)]

/-- Hexadecimal rendering of `n`, zero-padded on the left to `w` digits. -/
def hexPad (w n : Nat) : String :=
  let ds := toHexAux (n+1) n
  String.mk (List.replicate (w - ds.length) '0' ++ ds)

/-- The `PFX` format: `0x` followed by a full-width zero-padded hex value. -/
def pfx (n : Nat) : String := "0x" ++ hexPad (2 * wordBytes) n

/-- The `PIFX` format: `0x` followed by an unpadded hex value. -/
def pifx (n : Nat) : String := "0x" ++ String.mk (toHexAux (n+1) n)

/-- The argument-type vocabulary of `drsys_param_type_t` that this client
dispatches on; every enum value not named in the `switch` statements is
collapsed into `DRSYS_TYPE_UNKNOWN` with its raw tag. -/
inductive drsys_param_type_t where
  | DRSYS_TYPE_VOID
  | DRSYS_TYPE_POINTER
  | DRSYS_TYPE_BOOL
  | DRSYS_TYPE_INT
  | DRSYS_TYPE_SIGNED_INT
  | DRSYS_TYPE_UNSIGNED_INT
  | DRSYS_TYPE_HANDLE
  | DRSYS_TYPE_NTSTATUS
  | DRSYS_TYPE_ATOM
  | DRSYS_TYPE_UNICODE_STRING
  | DRSYS_TYPE_OBJECT_ATTRIBUTES
  | DRSYS_TYPE_IO_STATUS_BLOCK
  | DRSYS_TYPE_LARGE_INTEGER
  | DRSYS_TYPE_UNKNOWN (tag : Nat)
deriving DecidableEq, Repr

/-- The `drsys_param_mode_t` flag set: `DRSYS_PARAM_INLINED`,
`DRSYS_PARAM_IN`, `DRSYS_PARAM_OUT`, `DRSYS_PARAM_RETVAL`. -/
structure drsys_param_mode_t where
  inlined : Bool
  param_in : Bool
  param_out : Bool
  retval : Bool
deriving DecidableEq, Repr

/-- The `drsys_arg_t` record fields this client consumes. -/
structure drsys_arg_t where
  ordinal : Int
  type : drsys_param_type_t
  mode : drsys_param_mode_t
  value : Nat
  size : Nat
  pre : Bool
  valid : Bool
  arg_name : Option String
  type_name : Option String
deriving DecidableEq, Repr

/-- Observable events of the decoding pipeline: text written to the log,
a guarded `dr_safe_read` at an address with a byte count, a direct
(unguarded) dereference of traced-process memory, and an `ASSERT`
failure (diagnostic plus `dr_abort`). -/
inductive Ev where
  | out (s : String)
  | read (addr size : Nat)
  | directRead (addr : Nat)
  | abort (msg : String)
deriving DecidableEq, Repr

/-- Shape of a `UNICODE_STRING` as read from traced memory; `text` is the
wide-character data rendered by the `%.*S` conversion. -/
structure UNICODE_STRING where
  Length : Nat
  MaximumLength : Nat
  Buffer : Nat
  text : String

/-- Shape of an `OBJECT_ATTRIBUTES` as read from traced memory. -/
structure OBJECT_ATTRIBUTES where
  Length : Nat
  RootDirectory : Nat
  ObjectName : Nat
  Attributes : Nat
  SecurityDescriptor : Nat
  SecurityQualityOfService : Nat

/-- Shape of an `IO_STATUS_BLOCK` as read from traced memory. -/
structure IO_STATUS_BLOCK where
  Status : Nat
  Information : Nat

/-- The traced process's memory, as seen by this client: `safeRead` is the
guarded `dr_safe_read` primitive (may fail, returning `none`), while the
`readUS` / `readOA` / `readIosb` / `readLargeInt` views model what a direct
C pointer dereference of the respective structure yields. -/
structure Mem where
  safeRead : Nat → Nat → Option Nat
  readUS : Nat → UNICODE_STRING
  readOA : Nat → OBJECT_ATTRIBUTES
  readIosb : Nat → IO_STATUS_BLOCK
  readLargeInt : Nat → Nat

def isAbortEv : Ev → Bool
  | .abort _ => true
  | _ => false

def isReadEv : Ev → Bool
  | .read _ _ => true
  | _ => false

def isDirectReadEv : Ev → Bool
  | .directRead _ => true
  | _ => false

def isOutEv : Ev → Bool
  | .out _ => true
  | _ => false

def hasAbort (evs : List Ev) : Bool := evs.any isAbortEv

def hasRead (evs : List Ev) : Bool := evs.any isReadEv

def hasDirectRead (evs : List Ev) : Bool := evs.any isDirectReadEv

/-- Sequencing of event traces: an `ASSERT` failure aborts the process, so
nothing after it is ever executed. -/
def andThen (a b : List Ev) : List Ev := if hasAbort a then a else a ++ b

/-- `print_unicode_string` from drstrace.c, applied to the address of a
`UNICODE_STRING` in traced memory (`0` is the NULL pointer).  The struct
fields, and the wide-character buffer when non-NULL, are dereferenced
directly (not through `dr_safe_read`). -/
def print_unicode_string (mem : Mem) (usAddr : Nat) : List Ev :=
  if usAddr = 0 then [Ev.out "<null>"]
  else
    let us := mem.readUS usAddr
    Ev.directRead usAddr ::
      (if us.Buffer = 0 then
        [Ev.out (toString us.Length ++ "/" ++ toString us.MaximumLength ++ " \"<null>\"")]
      else
        [Ev.directRead us.Buffer,
         Ev.out (toString us.Length ++ "/" ++ toString us.MaximumLength ++
                 " \"" ++ us.text ++ "\"")])

/-- `print_simple_value` from drstrace.c: print the raw value (`PFX` when
the mode is pointer-to-value, else `PFX`/`PIFX` by `leading_zeroes`); when
the value is a pointer legible in the current phase, `ASSERT` the size fits
a machine word and attempt a guarded `dr_safe_read`, appending the
dereferenced value on success and nothing on failure. -/
def print_simple_value (mem : Mem) (arg : drsys_arg_t) (leading_zeroes : Bool) : List Ev :=
  let pointer : Bool := !arg.mode.inlined
  Ev.out (if pointer then pfx arg.value
          else if leading_zeroes then pfx arg.value else pifx arg.value) ::
    (if pointer && ((arg.pre && arg.mode.param_in) || (!arg.pre && arg.mode.param_out)) then
      if arg.size ≤ wordBytes then
        Ev.read arg.value arg.size ::
          (match mem.safeRead arg.value arg.size with
           | some deref =>
             [Ev.out (" => " ++ (if leading_zeroes then pfx deref else pifx deref))]
           | none => [])
      else [Ev.abort "too-big simple type"]
    else [])

/-- The leading label of `print_arg`: `retval:` for the sentinel ordinal
`-1`, else `arg <ordinal>:`. -/
def labelStr (arg : drsys_arg_t) : String :=
  if arg.ordinal = -1 then "\tretval: " else "\targ " ++ toString arg.ordinal ++ ": "

/-- The trailing metadata block of `print_arg`: optional `name=`, the type
name (empty-string placeholder when absent), a `*` marker when the value is
a pointer to the named type (suppressed for inlined or return-value
records), and the declared size. -/
def annotStr (arg : drsys_arg_t) : String :=
  " (" ++
  (match arg.arg_name with | none => "" | some n => "name=" ++ n ++ ", ") ++
  "type=" ++
  (match arg.type_name with | none => "\"\"" | some t => t) ++
  (if arg.type_name.isNone || (arg.mode.inlined || arg.mode.retval) then "" else "*") ++
  ", size=" ++ pifx arg.size ++ ")\n"

/-- The type-dispatch body of `print_arg`: the nine simple types go to
`print_simple_value`; every other tag first applies the NULL check, then
the pre-call output-only check, then dispatches to the complex renderers
with `<NYI>` as the default. -/
def printArgBody (mem : Mem) (arg : drsys_arg_t) : List Ev :=
  match arg.type with
  | .DRSYS_TYPE_VOID => print_simple_value mem arg true
  | .DRSYS_TYPE_POINTER => print_simple_value mem arg true
  | .DRSYS_TYPE_BOOL => print_simple_value mem arg false
  | .DRSYS_TYPE_INT => print_simple_value mem arg false
  | .DRSYS_TYPE_SIGNED_INT => print_simple_value mem arg false
  | .DRSYS_TYPE_UNSIGNED_INT => print_simple_value mem arg false
  | .DRSYS_TYPE_HANDLE => print_simple_value mem arg false
  | .DRSYS_TYPE_NTSTATUS => print_simple_value mem arg false
  | .DRSYS_TYPE_ATOM => print_simple_value mem arg false
  | other =>
    if arg.value = 0 then [Ev.out "<null>"]
    else if arg.pre && !arg.mode.param_in then [Ev.out (pfx arg.value)]
    else
      match other with
      | .DRSYS_TYPE_UNICODE_STRING => print_unicode_string mem arg.value
      | .DRSYS_TYPE_OBJECT_ATTRIBUTES =>
        let oa := mem.readOA arg.value
        [Ev.directRead arg.value,
         Ev.out ("len=" ++ pifx oa.Length ++ ", root=" ++ pifx oa.RootDirectory ++ ", name=")] ++
        print_unicode_string mem oa.ObjectName ++
        [Ev.out (", att=" ++ pifx oa.Attributes ++ ", sd=" ++ pfx oa.SecurityDescriptor ++
                 ", sqos=" ++ pfx oa.SecurityQualityOfService)]
      | .DRSYS_TYPE_IO_STATUS_BLOCK =>
        let iosb := mem.readIosb arg.value
        [Ev.directRead arg.value,
         Ev.out ("status=" ++ pifx iosb.Status ++ ", info=" ++ pifx iosb.Information)]
      | .DRSYS_TYPE_LARGE_INTEGER =>
        [Ev.directRead arg.value,
         Ev.out ("0x" ++ hexPad 16 (mem.readLargeInt arg.value))]
      | _ => [Ev.out "<NYI>"]

/-- `print_arg` from drstrace.c: label, type-dispatched value rendering,
then the trailing annotation block (reached only if no `ASSERT` fired). -/
def print_arg (mem : Mem) (arg : drsys_arg_t) : List Ev :=
  andThen (Ev.out (labelStr arg) :: printArgBody mem arg) [Ev.out (annotStr arg)]

/-- The phase-eligibility test of `drsys_iter_arg_cb`: at pre-call print
everything but the return value; at post-call print output-direction
records and the return value. -/
def shouldPrint (arg : drsys_arg_t) : Bool :=
  (arg.pre && !arg.mode.retval) || (!arg.pre && (arg.mode.param_out || arg.mode.retval))

/-- `drsys_iter_arg_cb` from drstrace.c: `ASSERT` the record is valid,
print it when phase-eligible, and return `true` to keep iterating. -/
def drsys_iter_arg_cb (mem : Mem) (arg : drsys_arg_t) : List Ev × Bool :=
  if arg.valid then
    ((if shouldPrint arg then print_arg mem arg else []), true)
  else ([Ev.abort "no args should be invalid"], true)

/-- The visitor loop of `drsys_iterate_args`: invoke the callback on each
record, stopping only if the process aborted or the callback asked to
stop (this callback never does). -/
def iterate_args (mem : Mem) : List drsys_arg_t → List Ev
  | [] => []
  | a :: rest =>
    let r := drsys_iter_arg_cb mem a
    if hasAbort r.1 then r.1
    else r.1 ++ (if r.2 then iterate_args mem rest else [])

/-- Result codes of the drsyscall collaborator that this client
distinguishes. -/
inductive drmf_status_t where
  | DRMF_SUCCESS
  | DRMF_ERROR_DETAILS_UNKNOWN
  | DRMF_ERROR (code : Nat)
deriving DecidableEq, Repr

/-- The post-iteration check shared by both phases: any result other than
success or details-unknown is a fatal `ASSERT`. -/
def iterFatalCheck (res : drmf_status_t) (msg : String) : List Ev :=
  match res with
  | .DRMF_SUCCESS => []
  | .DRMF_ERROR_DETAILS_UNKNOWN => []
  | .DRMF_ERROR _ => [Ev.abort msg]

/-- `event_pre_syscall` from drstrace.c, with the collaborator's answers
(`name`, `known`, the argument records, and the iteration result) passed
in explicitly; returns the event trace and the `true` that always lets the
syscall proceed. -/
def event_pre_syscall (mem : Mem) (name : String) (known : Bool)
    (args : List drsys_arg_t) (res : drmf_status_t) : List Ev × Bool :=
  (andThen
    (Ev.out (name ++ (if known then "" else " (details not all known)") ++ "\n") ::
      iterate_args mem args)
    (iterFatalCheck res "drsys_iterate_args failed pre-syscall"), true)

/-- `event_post_syscall` from drstrace.c, with the collaborator's answers
(`success`, the argument records, and the iteration result) passed in
explicitly. -/
def event_post_syscall (mem : Mem) (success : Bool)
    (args : List drsys_arg_t) (res : drmf_status_t) : List Ev :=
  andThen
    (Ev.out ("    " ++ (if success then "succeeded" else "failed") ++ " =>\n") ::
      iterate_args mem args)
    (iterFatalCheck res "drsys_iterate_args failed post-syscall")

/-- The nine type tags routed to `print_simple_value` by `print_arg`. -/
def isSimple : drsys_param_type_t → Bool
  | .DRSYS_TYPE_VOID | .DRSYS_TYPE_POINTER | .DRSYS_TYPE_BOOL | .DRSYS_TYPE_INT
  | .DRSYS_TYPE_SIGNED_INT | .DRSYS_TYPE_UNSIGNED_INT | .DRSYS_TYPE_HANDLE
  | .DRSYS_TYPE_NTSTATUS | .DRSYS_TYPE_ATOM => true
  | _ => false

/-- A memory state in which every guarded safe read fails and every direct
view yields zeroed structures. -/
def memNone : Mem :=
  { safeRead := fun _ _ => none
    readUS := fun _ => ⟨0, 0, 0, ""⟩
    readOA := fun _ => ⟨0, 0, 0, 0, 0, 0⟩
    readIosb := fun _ => ⟨0, 0⟩
    readLargeInt := fun _ => 0 }

@[simp] theorem hasAbort_nil : hasAbort [] = false := rfl

@[simp] theorem hasAbort_cons (e : Ev) (l : List Ev) :
    hasAbort (e :: l) = (isAbortEv e || hasAbort l) := by
  simp [hasAbort]

@[simp] theorem hasAbort_append (a b : List Ev) :
    hasAbort (a ++ b) = (hasAbort a || hasAbort b) := by
  simp [hasAbort]

@[simp] theorem hasRead_nil : hasRead [] = false := rfl

@[simp] theorem hasRead_cons (e : Ev) (l : List Ev) :
    hasRead (e :: l) = (isReadEv e || hasRead l) := by
  simp [hasRead]

@[simp] theorem hasRead_append (a b : List Ev) :
    hasRead (a ++ b) = (hasRead a || hasRead b) := by
  simp [hasRead]

@[simp] theorem hasDirectRead_nil : hasDirectRead [] = false := rfl

@[simp] theorem hasDirectRead_cons (e : Ev) (l : List Ev) :
    hasDirectRead (e :: l) = (isDirectReadEv e || hasDirectRead l) := by
  simp [hasDirectRead]

@[simp] theorem hasDirectRead_append (a b : List Ev) :
    hasDirectRead (a ++ b) = (hasDirectRead a || hasDirectRead b) := by
  simp [hasDirectRead]

theorem andThen_eq_append (a b : List Ev) (h : hasAbort a = false) :
    andThen a b = a ++ b := by
  simp [andThen, h]

theorem string_data_append (a b : String) : (a ++ b).data = a.data ++ b.data := by
  cases a; cases b; rfl

theorem data_head_ne (s t : String) (c d : Char)
    (hc : s.data.head? = some c) (hd : t.data.head? = some d) (hne : c ≠ d) :
    s ≠ t := by
  intro he
  rw [he, hd] at hc
  exact hne (Option.some.inj hc).symm

theorem pfx_ne_null (n : Nat) : pfx n ≠ "<null>" := by
  refine data_head_ne _ _ '0' '<' ?_ rfl (by decide)
  rfl

theorem pifx_ne_null (n : Nat) : pifx n ≠ "<null>" := by
  refine data_head_ne _ _ '0' '<' ?_ rfl (by decide)
  rfl

theorem arrow_ne_null (s : String) : (" => " ++ s) ≠ "<null>" := by
  refine data_head_ne _ _ ' ' '<' ?_ rfl (by decide)
  rw [string_data_append]
  rfl

theorem labelStr_ne_null (arg : drsys_arg_t) : labelStr arg ≠ "<null>" := by
  unfold labelStr
  split
  · decide
  · refine data_head_ne _ _ '\t' '<' ?_ rfl (by decide)
    rw [string_data_append, string_data_append]
    rfl

theorem annotStr_ne_null (arg : drsys_arg_t) : annotStr arg ≠ "<null>" := by
  refine data_head_ne _ _ ' ' '<' ?_ rfl (by decide)
  unfold annotStr
  simp only [string_data_append]
  rfl

theorem psv_hasAbort (mem : Mem) (arg : drsys_arg_t) (lz : Bool)
    (hsz : arg.size ≤ wordBytes) :
    hasAbort (print_simple_value mem arg lz) = false := by
  cases hm : mem.safeRead arg.value arg.size <;>
    cases hc : (!arg.mode.inlined &&
        ((arg.pre && arg.mode.param_in) || (!arg.pre && arg.mode.param_out))) <;>
      simp [print_simple_value, hc, hsz, hm, isAbortEv]

theorem psv_hasDirectRead (mem : Mem) (arg : drsys_arg_t) (lz : Bool) :
    hasDirectRead (print_simple_value mem arg lz) = false := by
  by_cases hz : arg.size ≤ wordBytes <;>
    cases hm : mem.safeRead arg.value arg.size <;>
      cases hc : (!arg.mode.inlined &&
          ((arg.pre && arg.mode.param_in) || (!arg.pre && arg.mode.param_out))) <;>
        simp [print_simple_value, hc, hm, hz, isDirectReadEv]

theorem psv_hasRead (mem : Mem) (arg : drsys_arg_t) (lz : Bool)
    (hsz : arg.size ≤ wordBytes) :
    hasRead (print_simple_value mem arg lz) =
      (!arg.mode.inlined &&
        ((arg.pre && arg.mode.param_in) || (!arg.pre && arg.mode.param_out))) := by
  cases hm : mem.safeRead arg.value arg.size <;>
    cases hc : (!arg.mode.inlined &&
        ((arg.pre && arg.mode.param_in) || (!arg.pre && arg.mode.param_out))) <;>
      simp [print_simple_value, hc, hsz, hm, isReadEv]

theorem psv_read_mem (mem : Mem) (arg : drsys_arg_t) (lz : Bool) (a s : Nat)
    (h : Ev.read a s ∈ print_simple_value mem arg lz) :
    a = arg.value ∧ s = arg.size := by
  simp only [print_simple_value, List.mem_cons] at h
  rcases h with h1 | h2
  · exact absurd h1 (by simp)
  · split at h2
    · split at h2
      · rcases List.mem_cons.mp h2 with h3 | h4
        · obtain ⟨ha, hs'⟩ := Ev.read.inj h3
          exact ⟨ha, hs'⟩
        · cases hm : mem.safeRead arg.value arg.size <;> rw [hm] at h4 <;> simp at h4
      · simp at h2
    · simp at h2

theorem psv_fail (mem : Mem) (arg : drsys_arg_t) (lz : Bool)
    (hsz : arg.size ≤ wordBytes) (hptr : arg.mode.inlined = false)
    (hleg : ((arg.pre && arg.mode.param_in) || (!arg.pre && arg.mode.param_out)) = true)
    (hf : mem.safeRead arg.value arg.size = none) :
    print_simple_value mem arg lz =
      [Ev.out (pfx arg.value), Ev.read arg.value arg.size] := by
  simp [print_simple_value, hptr, hleg, hsz, hf]

theorem psv_no_null (mem : Mem) (arg : drsys_arg_t) (lz : Bool) :
    Ev.out "<null>" ∉ print_simple_value mem arg lz := by
  simp only [print_simple_value]
  intro h
  rcases List.mem_cons.mp h with h1 | h2
  · have h1' := Ev.out.inj h1
    split at h1'
    · exact pfx_ne_null _ h1'.symm
    · split at h1'
      · exact pfx_ne_null _ h1'.symm
      · exact pifx_ne_null _ h1'.symm
  · split at h2
    · split at h2
      · rcases List.mem_cons.mp h2 with h3 | h4
        · simp at h3
        · cases hm : mem.safeRead arg.value arg.size <;> rw [hm] at h4
          · simp at h4
          · rcases List.mem_singleton.mp h4 with h5
            exact arrow_ne_null _ (Ev.out.inj h5).symm
      · simp at h2
    · simp at h2

theorem print_arg_simple (mem : Mem) (arg : drsys_arg_t) (hs : isSimple arg.type = true) :
    ∃ lz, print_arg mem arg =
      andThen (Ev.out (labelStr arg) :: print_simple_value mem arg lz)
        [Ev.out (annotStr arg)] := by
  unfold print_arg printArgBody
  cases harg : arg.type
  all_goals first
    | exact ⟨true, rfl⟩
    | exact ⟨false, rfl⟩
    | (rw [harg] at hs; simp [isSimple] at hs)

theorem print_arg_ne_nil (mem : Mem) (arg : drsys_arg_t) : print_arg mem arg ≠ [] := by
  unfold print_arg andThen
  split <;> simp

/-- An output-only (non-input, non-retval) pointer argument observed at the
pre-call phase: a common shape, e.g. the `PHANDLE` out-parameter of
`NtCreateFile`. -/
def outOnlyPreArg : drsys_arg_t :=
  { ordinal := 1, type := .DRSYS_TYPE_POINTER,
    mode := { inlined := false, param_in := false, param_out := true, retval := false },
    value := 0x2000, size := 8, pre := true, valid := true,
    arg_name := none, type_name := some "PHANDLE" }

/-- The synthetic return-value record at the post-call phase. -/
def retvalPostArg : drsys_arg_t :=
  { ordinal := -1, type := .DRSYS_TYPE_NTSTATUS,
    mode := { inlined := true, param_in := false, param_out := false, retval := true },
    value := 0, size := 4, pre := false, valid := true,
    arg_name := none, type_name := some "NTSTATUS" }

/-- An input-direction pointer-to-int argument at the pre-call phase. -/
def inPtrArg : drsys_arg_t :=
  { ordinal := 0, type := .DRSYS_TYPE_INT,
    mode := { inlined := false, param_in := true, param_out := false, retval := false },
    value := 0x1000, size := 4, pre := true, valid := true,
    arg_name := none, type_name := some "int" }

/-- C1, counterexample: at the entry phase the iteration callback renders a
record that is *not* input-direction (it is output-only) and is not the
return-value slot, contradicting "rendered iff input-direction and not the
return-value slot". -/
theorem entry_renders_output_only_record :
    outOnlyPreArg.pre = true ∧ outOnlyPreArg.mode.param_in = false ∧
    outOnlyPreArg.mode.retval = false ∧
    (drsys_iter_arg_cb memNone outOnlyPreArg).1 ≠ [] := by
  decide

/-- C1, amended: at the entry (pre-call) phase, a valid Argument Record is
rendered if and only if it is not the return-value slot — direction flags
are not consulted at entry, so the return value is never printed then. -/
theorem entry_phase_renders_iff_not_retval (mem : Mem) (arg : drsys_arg_t)
    (hv : arg.valid = true) (hp : arg.pre = true) :
    (drsys_iter_arg_cb mem arg).1 ≠ [] ↔ arg.mode.retval = false := by
  cases hr : arg.mode.retval <;>
    simp [drsys_iter_arg_cb, hv, shouldPrint, hp, hr, print_arg_ne_nil]

/-- C1, witness: the amended rule instantiated at a concrete output-only
pre-call record. -/
theorem entry_phase_renders_iff_not_retval_witness :
    (drsys_iter_arg_cb memNone outOnlyPreArg).1 ≠ [] ↔
      outOnlyPreArg.mode.retval = false :=
  entry_phase_renders_iff_not_retval memNone outOnlyPreArg rfl rfl

/-- C2: at the exit (post-call) phase, a valid Argument Record is rendered
if and only if it is an output-direction record or the return-value slot. -/
theorem exit_phase_renders_iff_out_or_retval (mem : Mem) (arg : drsys_arg_t)
    (hv : arg.valid = true) (hp : arg.pre = false) :
    (drsys_iter_arg_cb mem arg).1 ≠ [] ↔
      (arg.mode.param_out || arg.mode.retval) = true := by
  cases ho : arg.mode.param_out <;> cases hr : arg.mode.retval <;>
    simp [drsys_iter_arg_cb, hv, shouldPrint, hp, ho, hr, print_arg_ne_nil]

/-- C2, witness: the exit rule instantiated at the concrete return-value
record. -/
theorem exit_phase_renders_iff_out_or_retval_witness :
    (drsys_iter_arg_cb memNone retvalPostArg).1 ≠ [] ↔
      (retvalPostArg.mode.param_out || retvalPostArg.mode.retval) = true :=
  exit_phase_renders_iff_out_or_retval memNone retvalPostArg rfl rfl

/-- C3: for a simple-typed record (under the size invariant), decoding
attempts a guarded memory dereference exactly when the record's mode is
pointer-to-value (not inlined) and the pointer is legible in the current
phase (input direction at pre-call, output direction at post-call); in
particular an inlined record never triggers a dereference attempt. -/
theorem simple_type_deref_iff (mem : Mem) (arg : drsys_arg_t)
    (hs : isSimple arg.type = true) (hsz : arg.size ≤ wordBytes) :
    hasRead (print_arg mem arg) =
      (!arg.mode.inlined &&
        ((arg.pre && arg.mode.param_in) || (!arg.pre && arg.mode.param_out))) := by
  obtain ⟨lz, he⟩ := print_arg_simple mem arg hs
  have hna : hasAbort (Ev.out (labelStr arg) :: print_simple_value mem arg lz) = false := by
    simp [isAbortEv, psv_hasAbort mem arg lz hsz]
  rw [he, andThen_eq_append _ _ hna]
  simp [isReadEv, psv_hasRead mem arg lz hsz]

/-- C3, witness: the dereference rule instantiated at a concrete legible
input pointer argument. -/
theorem simple_type_deref_iff_witness :
    hasRead (print_arg memNone inPtrArg) =
      (!inPtrArg.mode.inlined &&
        ((inPtrArg.pre && inPtrArg.mode.param_in) ||
         (!inPtrArg.pre && inPtrArg.mode.param_out))) :=
  simple_type_deref_iff memNone inPtrArg rfl (by decide)

/-- A `UNICODE_STRING` input argument at the pre-call phase, with a live
(non-null) pointer, decoded against a memory state in which all guarded
reads fail. -/
def usArg : drsys_arg_t :=
  { ordinal := 2, type := .DRSYS_TYPE_UNICODE_STRING,
    mode := { inlined := false, param_in := true, param_out := false, retval := false },
    value := 0x1000, size := 8, pre := true, valid := true,
    arg_name := none, type_name := some "UNICODE_STRING" }

/-- C4, counterexample: decoding a complex-typed record dereferences
traced-process memory directly (struct field access in
`print_unicode_string`), not through the guarded `dr_safe_read`, so not
every read of traced memory during decoding goes through the safe read. -/
theorem complex_decode_bypasses_safe_read :
    hasDirectRead (print_arg memNone usArg) = true ∧
    hasRead (print_arg memNone usArg) = false := by
  decide

/-- C4, amended: during simple-value decoding every read of traced memory
goes through the guarded safe read at the record's value, is strictly
bounded by the record's declared size (never exceeding one machine word
under the size invariant), no direct dereference occurs, and the
too-big-simple-type assertion never fires. -/
theorem simple_reads_guarded (mem : Mem) (arg : drsys_arg_t)
    (hs : isSimple arg.type = true) (hsz : arg.size ≤ wordBytes) :
    (∀ a s, Ev.read a s ∈ print_arg mem arg →
      a = arg.value ∧ s = arg.size ∧ s ≤ wordBytes) ∧
    hasDirectRead (print_arg mem arg) = false ∧
    hasAbort (print_arg mem arg) = false := by
  obtain ⟨lz, he⟩ := print_arg_simple mem arg hs
  have hna : hasAbort (Ev.out (labelStr arg) :: print_simple_value mem arg lz) = false := by
    simp [isAbortEv, psv_hasAbort mem arg lz hsz]
  rw [he, andThen_eq_append _ _ hna]
  refine ⟨?_, ?_, ?_⟩
  · intro a s h
    rcases List.mem_append.mp h with h1 | h2
    · rcases List.mem_cons.mp h1 with h3 | h4
      · simp at h3
      · obtain ⟨ha, hs'⟩ := psv_read_mem mem arg lz a s h4
        exact ⟨ha, hs', hs' ▸ hsz⟩
    · simp at h2
  · simp [isDirectReadEv, psv_hasDirectRead mem arg lz]
  · simp [isAbortEv, psv_hasAbort mem arg lz hsz]

/-- C4, witness: the amended guarantee instantiated at a concrete legible
input pointer argument (the read-bound clause applied to the one read the
trace contains). -/
theorem simple_reads_guarded_witness :
    hasDirectRead (print_arg memNone inPtrArg) = false ∧
    hasAbort (print_arg memNone inPtrArg) = false :=
  (simple_reads_guarded memNone inPtrArg rfl (by decide)).2

/-- A pointer-typed (`DRSYS_TYPE_POINTER`) input argument whose value is
the null address. -/
def nullPtrArg : drsys_arg_t :=
  { ordinal := 3, type := .DRSYS_TYPE_POINTER,
    mode := { inlined := false, param_in := true, param_out := false, retval := false },
    value := 0, size := 8, pre := true, valid := true,
    arg_name := none, type_name := some "PVOID" }

/-- C5, counterexample: a pointer-typed record with null value is routed to
the simple-value decoder, which prints the zero address (never the
`<null>` placeholder) and still performs a guarded read at address zero. -/
theorem null_pointer_record_not_placeholder :
    nullPtrArg.type = drsys_param_type_t.DRSYS_TYPE_POINTER ∧
    nullPtrArg.value = 0 ∧
    (Ev.out "<null>") ∉ print_arg memNone nullPtrArg ∧
    hasRead (print_arg memNone nullPtrArg) = true := by
  decide

/-- C5, amended: for every *complex-typed* (non-simple) record whose value
is the null address, the decoder emits the `<null>` placeholder and
performs zero memory reads (guarded or direct), without classifying or
dereferencing the pointer. -/
theorem complex_null_prints_placeholder (mem : Mem) (arg : drsys_arg_t)
    (hs : isSimple arg.type = false) (h0 : arg.value = 0) :
    print_arg mem arg =
      [Ev.out (labelStr arg), Ev.out "<null>", Ev.out (annotStr arg)] ∧
    hasRead (print_arg mem arg) = false ∧
    hasDirectRead (print_arg mem arg) = false := by
  have hbody : printArgBody mem arg = [Ev.out "<null>"] := by
    unfold printArgBody
    cases harg : arg.type
    all_goals first
      | (rw [harg] at hs; exact absurd hs (by decide))
      | simp [h0]
  have he : print_arg mem arg =
      [Ev.out (labelStr arg), Ev.out "<null>", Ev.out (annotStr arg)] := by
    unfold print_arg
    rw [hbody]
    simp [andThen, isAbortEv]
  refine ⟨he, ?_, ?_⟩
  · rw [he]; simp [isReadEv]
  · rw [he]; simp [isDirectReadEv]

/-- An `OBJECT_ATTRIBUTES` (complex-typed) argument whose value is NULL. -/
def nullOaArg : drsys_arg_t :=
  { ordinal := 2, type := .DRSYS_TYPE_OBJECT_ATTRIBUTES,
    mode := { inlined := false, param_in := true, param_out := false, retval := false },
    value := 0, size := 48, pre := true, valid := true,
    arg_name := some "ObjectAttributes", type_name := some "OBJECT_ATTRIBUTES" }

/-- C5, witness: the amended null policy instantiated at a concrete null
`OBJECT_ATTRIBUTES` argument. -/
theorem complex_null_prints_placeholder_witness :
    print_arg memNone nullOaArg =
      [Ev.out (labelStr nullOaArg), Ev.out "<null>", Ev.out (annotStr nullOaArg)] ∧
    hasRead (print_arg memNone nullOaArg) = false ∧
    hasDirectRead (print_arg memNone nullOaArg) = false :=
  complex_null_prints_placeholder memNone nullOaArg rfl rfl

/-- C6: when the guarded safe read of a simple-typed record fails, no
error is raised: the process does not abort, the callback still returns
`true`, the rendered line keeps the pointer address (exactly the label,
the address, and the annotation — no dereferenced value is appended), and
argument iteration continues with the next record. -/
theorem failed_deref_is_silent (mem : Mem) (arg : drsys_arg_t)
    (hv : arg.valid = true) (hs : isSimple arg.type = true)
    (hsz : arg.size ≤ wordBytes) (hptr : arg.mode.inlined = false)
    (hleg : ((arg.pre && arg.mode.param_in) || (!arg.pre && arg.mode.param_out)) = true)
    (hf : mem.safeRead arg.value arg.size = none) :
    (drsys_iter_arg_cb mem arg).2 = true ∧
    hasAbort (drsys_iter_arg_cb mem arg).1 = false ∧
    (shouldPrint arg = true →
      (print_arg mem arg).filter isOutEv =
        [Ev.out (labelStr arg), Ev.out (pfx arg.value), Ev.out (annotStr arg)] ∧
      Ev.read arg.value arg.size ∈ print_arg mem arg) ∧
    (∀ rest, iterate_args mem (arg :: rest) =
      (drsys_iter_arg_cb mem arg).1 ++ iterate_args mem rest) := by
  obtain ⟨lz, he⟩ := print_arg_simple mem arg hs
  have hpsv := psv_fail mem arg lz hsz hptr hleg hf
  have hpa : print_arg mem arg =
      [Ev.out (labelStr arg), Ev.out (pfx arg.value),
       Ev.read arg.value arg.size, Ev.out (annotStr arg)] := by
    rw [he, hpsv]
    simp [andThen, isAbortEv]
  have hsnd : (drsys_iter_arg_cb mem arg).2 = true := by
    cases hvv : arg.valid <;> simp [drsys_iter_arg_cb, hvv]
  have hcbAbort : hasAbort (drsys_iter_arg_cb mem arg).1 = false := by
    cases hsp : shouldPrint arg <;>
      simp [drsys_iter_arg_cb, hv, hsp, hpa, isAbortEv]
  refine ⟨hsnd, hcbAbort, ?_, ?_⟩
  · intro _
    refine ⟨?_, ?_⟩
    · rw [hpa]
      rfl
    · rw [hpa]
      simp
  · intro rest
    simp [iterate_args, hcbAbort, hsnd]

/-- C6, witness: the silent-failure guarantee instantiated at a concrete
input pointer argument whose guarded read fails. -/
theorem failed_deref_is_silent_witness :
    (print_arg memNone inPtrArg).filter isOutEv =
      [Ev.out (labelStr inPtrArg), Ev.out (pfx inPtrArg.value),
       Ev.out (annotStr inPtrArg)] :=
  ((failed_deref_is_silent memNone inPtrArg rfl rfl (by decide) rfl rfl rfl).2.2.1 rfl).1

/-- C7: the trailing annotation block is a function of exactly
(`arg_name`, `type_name`, `mode`, `size`) — two records agreeing on those
four fields get identical annotations regardless of type tag, value,
phase, or decode outcome — and every fully rendered line (no abort) ends
with the annotation. -/
theorem annot_deterministic (mem : Mem) (a b : drsys_arg_t) :
    (a.arg_name = b.arg_name → a.type_name = b.type_name → a.mode = b.mode →
      a.size = b.size → annotStr a = annotStr b) ∧
    (hasAbort (print_arg mem a) = false →
      (print_arg mem a).getLast? = some (Ev.out (annotStr a))) := by
  constructor
  · intro h1 h2 h3 h4
    unfold annotStr
    rw [h1, h2, h3, h4]
  · intro h
    unfold print_arg at h ⊢
    cases hx : hasAbort (Ev.out (labelStr a) :: printArgBody mem a)
    · rw [andThen_eq_append _ _ hx]
      exact List.getLast?_concat _
    · simp [andThen, hx] at h

/-- A handle-typed input argument with both symbolic names present. -/
def twinArgA : drsys_arg_t :=
  { ordinal := 0, type := .DRSYS_TYPE_HANDLE,
    mode := { inlined := false, param_in := true, param_out := false, retval := false },
    value := 0x1234, size := 8, pre := true, valid := true,
    arg_name := some "FileHandle", type_name := some "HANDLE" }

/-- A record agreeing with `twinArgA` on (`arg_name`, `type_name`, `mode`,
`size`) but differing in type tag, value and phase. -/
def twinArgB : drsys_arg_t :=
  { twinArgA with type := .DRSYS_TYPE_UNKNOWN 99, value := 0, pre := false }

/-- C7, witness: identical annotations for the two concrete twins, and the
annotation closing a concrete rendered line. -/
theorem annot_deterministic_witness :
    annotStr twinArgA = annotStr twinArgB ∧
    (print_arg memNone twinArgA).getLast? = some (Ev.out (annotStr twinArgA)) :=
  ⟨(annot_deterministic memNone twinArgA twinArgB).1 rfl rfl rfl rfl,
   (annot_deterministic memNone twinArgA twinArgB).2 (by decide)⟩

/-- C8: a record whose type tag is outside the recognized vocabulary (and
not caught by the null or pre-call output-only cases) renders as the
literal `<NYI>` placeholder with no memory access of any kind, no abort,
and the fully populated annotation block. -/
theorem unknown_tag_prints_nyi (mem : Mem) (arg : drsys_arg_t) (tag : Nat)
    (ht : arg.type = drsys_param_type_t.DRSYS_TYPE_UNKNOWN tag)
    (h0 : arg.value ≠ 0)
    (hio : (arg.pre && !arg.mode.param_in) = false) :
    print_arg mem arg =
      [Ev.out (labelStr arg), Ev.out "<NYI>", Ev.out (annotStr arg)] ∧
    hasRead (print_arg mem arg) = false ∧
    hasDirectRead (print_arg mem arg) = false ∧
    hasAbort (print_arg mem arg) = false := by
  have hbody : printArgBody mem arg = [Ev.out "<NYI>"] := by
    simp [printArgBody, ht, h0, hio]
  have he : print_arg mem arg =
      [Ev.out (labelStr arg), Ev.out "<NYI>", Ev.out (annotStr arg)] := by
    unfold print_arg
    rw [hbody]
    simp [andThen, isAbortEv]
  refine ⟨he, ?_, ?_, ?_⟩ <;> rw [he] <;>
    simp [isReadEv, isDirectReadEv, isAbortEv]

/-- An argument with an unrecognized type tag, live pointer value, at the
post-call phase. -/
def unknownArg : drsys_arg_t :=
  { ordinal := 4, type := .DRSYS_TYPE_UNKNOWN 42,
    mode := { inlined := false, param_in := false, param_out := true, retval := false },
    value := 0x5000, size := 16, pre := false, valid := true,
    arg_name := none, type_name := none }

/-- C8, witness: the `<NYI>` rendering at a concrete unrecognized-tag
record. -/
theorem unknown_tag_prints_nyi_witness :
    print_arg memNone unknownArg =
      [Ev.out (labelStr unknownArg), Ev.out "<NYI>", Ev.out (annotStr unknownArg)] :=
  (unknown_tag_prints_nyi memNone unknownArg 42 rfl (by decide) rfl).1

/-- C9: error classification of the sequencer — an invalid Argument Record
aborts with a diagnostic; in both phases an iteration result other than
success is fatal unless it is the details-unknown condition, which is
tolerated silently (the trace equals the success trace, with no abort),
while any other error result aborts. -/
theorem error_classification :
    (∀ (mem : Mem) (arg : drsys_arg_t), arg.valid = false →
      (drsys_iter_arg_cb mem arg).1 = [Ev.abort "no args should be invalid"]) ∧
    (∀ (mem : Mem) (name : String) (known : Bool) (args : List drsys_arg_t),
      hasAbort (iterate_args mem args) = false →
        ((event_pre_syscall mem name known args
            drmf_status_t.DRMF_ERROR_DETAILS_UNKNOWN).1 =
          (event_pre_syscall mem name known args drmf_status_t.DRMF_SUCCESS).1 ∧
         hasAbort (event_pre_syscall mem name known args
            drmf_status_t.DRMF_ERROR_DETAILS_UNKNOWN).1 = false ∧
         ∀ code, hasAbort (event_pre_syscall mem name known args
            (drmf_status_t.DRMF_ERROR code)).1 = true)) ∧
    (∀ (mem : Mem) (success : Bool) (args : List drsys_arg_t),
      hasAbort (iterate_args mem args) = false →
        (event_post_syscall mem success args
            drmf_status_t.DRMF_ERROR_DETAILS_UNKNOWN =
          event_post_syscall mem success args drmf_status_t.DRMF_SUCCESS ∧
         hasAbort (event_post_syscall mem success args
            drmf_status_t.DRMF_ERROR_DETAILS_UNKNOWN) = false ∧
         ∀ code, hasAbort (event_post_syscall mem success args
            (drmf_status_t.DRMF_ERROR code)) = true)) := by
  refine ⟨?_, ?_, ?_⟩
  · intro mem arg h
    simp [drsys_iter_arg_cb, h]
  · intro mem name known args h
    have hx : hasAbort
        (Ev.out (name ++ (if known then "" else " (details not all known)") ++ "\n") ::
          iterate_args mem args) = false := by
      simp [isAbortEv, h]
    refine ⟨?_, ?_, ?_⟩
    · simp [event_pre_syscall, iterFatalCheck]
    · simp [event_pre_syscall, iterFatalCheck, andThen_eq_append _ _ hx, isAbortEv, h]
    · intro code
      simp [event_pre_syscall, iterFatalCheck, andThen_eq_append _ _ hx, isAbortEv, h]
  · intro mem success args h
    have hx : hasAbort
        (Ev.out ("    " ++ (if success then "succeeded" else "failed") ++ " =>\n") ::
          iterate_args mem args) = false := by
      simp [isAbortEv, h]
    refine ⟨?_, ?_, ?_⟩
    · simp [event_post_syscall, iterFatalCheck]
    · simp [event_post_syscall, iterFatalCheck, andThen_eq_append _ _ hx, isAbortEv, h]
    · intro code
      simp [event_post_syscall, iterFatalCheck, andThen_eq_append _ _ hx, isAbortEv, h]

/-- A record the introspection service reports as invalid. -/
def invalidArg : drsys_arg_t :=
  { ordinal := 0, type := .DRSYS_TYPE_INT,
    mode := { inlined := true, param_in := true, param_out := false, retval := false },
    value := 0, size := 4, pre := true, valid := false,
    arg_name := none, type_name := none }

/-- C9, witness: the classification instantiated at a concrete invalid
record, a concrete fatal pre-phase iteration error, and a concrete
tolerated details-unknown post-phase result. -/
theorem error_classification_witness :
    (drsys_iter_arg_cb memNone invalidArg).1 =
      [Ev.abort "no args should be invalid"] ∧
    hasAbort (event_pre_syscall memNone "NtClose" true []
      (drmf_status_t.DRMF_ERROR 3)).1 = true ∧
    hasAbort (event_post_syscall memNone false []
      drmf_status_t.DRMF_ERROR_DETAILS_UNKNOWN) = false :=
  ⟨error_classification.1 memNone invalidArg rfl,
   (error_classification.2.1 memNone "NtClose" true [] rfl).2.2 3,
   (error_classification.2.2 memNone false [] rfl).2.1⟩

/-- C10: a simple-typed record in pointer-to-value mode whose value is the
null address is *not* given the `<null>` placeholder: the zero address is
printed, and when the phase and direction make the pointer legible a
guarded read at address zero is still attempted, silently appending
nothing when it fails — unlike complex-typed records. -/
theorem simple_null_pointer_behavior (mem : Mem) (arg : drsys_arg_t)
    (hs : isSimple arg.type = true) (hptr : arg.mode.inlined = false)
    (h0 : arg.value = 0) (hsz : arg.size ≤ wordBytes) :
    (Ev.out "<null>") ∉ print_arg mem arg ∧
    Ev.out (pfx 0) ∈ print_arg mem arg ∧
    (((arg.pre && arg.mode.param_in) || (!arg.pre && arg.mode.param_out)) = true →
      Ev.read 0 arg.size ∈ print_arg mem arg ∧
      (mem.safeRead 0 arg.size = none →
        (print_arg mem arg).filter isOutEv =
          [Ev.out (labelStr arg), Ev.out (pfx 0), Ev.out (annotStr arg)])) := by
  obtain ⟨lz, he⟩ := print_arg_simple mem arg hs
  have hna : hasAbort (Ev.out (labelStr arg) :: print_simple_value mem arg lz) = false := by
    simp [isAbortEv, psv_hasAbort mem arg lz hsz]
  have happ : print_arg mem arg =
      Ev.out (labelStr arg) :: (print_simple_value mem arg lz ++ [Ev.out (annotStr arg)]) := by
    rw [he, andThen_eq_append _ _ hna]
    rfl
  refine ⟨?_, ?_, ?_⟩
  · intro h
    rw [happ] at h
    rcases List.mem_cons.mp h with h1 | h2
    · exact labelStr_ne_null arg (Ev.out.inj h1).symm
    · rcases List.mem_append.mp h2 with h3 | h4
      · exact psv_no_null mem arg lz h3
      · exact annotStr_ne_null arg (Ev.out.inj (List.mem_singleton.mp h4)).symm
  · have hm : Ev.out (pfx arg.value) ∈ print_simple_value mem arg lz := by
      simp [print_simple_value, hptr]
    rw [h0] at hm
    rw [happ]
    exact List.mem_cons_of_mem _ (List.mem_append_left _ hm)
  · intro hleg
    constructor
    · have hr : Ev.read arg.value arg.size ∈ print_simple_value mem arg lz := by
        simp [print_simple_value, hptr, hleg, hsz]
      rw [h0] at hr
      rw [happ]
      exact List.mem_cons_of_mem _ (List.mem_append_left _ hr)
    · intro hf
      have hpa : print_arg mem arg =
          [Ev.out (labelStr arg), Ev.out (pfx arg.value),
           Ev.read arg.value arg.size, Ev.out (annotStr arg)] := by
        rw [he, psv_fail mem arg lz hsz hptr hleg (by rw [h0]; exact hf)]
        simp [andThen, isAbortEv]
      rw [hpa, h0]
      rfl

/-- C10, witness: the null-address simple-pointer behavior instantiated at
the concrete null `DRSYS_TYPE_POINTER` argument. -/
theorem simple_null_pointer_behavior_witness :
    Ev.out (pfx 0) ∈ print_arg memNone nullPtrArg ∧
    Ev.read 0 nullPtrArg.size ∈ print_arg memNone nullPtrArg :=
  ⟨(simple_null_pointer_behavior memNone nullPtrArg rfl rfl rfl (by decide)).2.1,
   ((simple_null_pointer_behavior memNone nullPtrArg rfl rfl rfl (by decide)).2.2 rfl).1⟩

end Drstrace
